import Mathlib

/-!
Shallow embedding of the Costco item-availability server (costco-server.js).

The server exposes a search workflow: resolve a warehouse (either from an
explicitly supplied warehouse id, or via geocoding a zip code and then the
warehouse locator), then query the search backend scoped to that warehouse.
Two facade endpoints (GET and POST) merge request fields against a mutable
global configuration; a configuration endpoint overwrites individual fields
of that configuration.

Upstream HTTP dependencies (geocoding, warehouse locator, search) are
modelled as pure oracles inside an `Upstream` record, and every outbound
request the workflow issues is recorded in a `NetCall` trace, so
"zero network calls" and "geocode before locator" become statements about
that trace.  JavaScript truthiness on the relevant field types is modelled
explicitly: an absent value is `none`, an empty string and the number 0 are
falsy, `NaN` (the result of `parseInt` on a non-numeric string) is the
falsy value `none` of `Option Int`.
-/

/-- JSON values; used for opaque upstream document fields and for the JSON
bodies the facade produces.  Object key order is insertion order, matching
the serialization of JavaScript object literals. -/
inductive Json where
  | null : Json
  | bool : Bool → Json
  | num : Int → Json
  | str : String → Json
  | arr : List Json → Json
  | obj : List (String × Json) → Json

/-- Keys of a JSON object, in insertion order; empty for non-objects. -/
def jsonKeys (j : Json) : List String :=
  match j with
  | Json.obj kvs => kvs.map (fun kv => kv.1)
  | _ => []

/-- Field lookup in a JSON object; none for non-objects or missing keys. -/
def lookupField (j : Json) (k : String) : Option Json :=
  match j with
  | Json.obj kvs => kvs.lookup k
  | _ => none

/-- Warehouse record produced by the resolver (costco-server.js lines 60-65
and 99-104). -/
structure Warehouse where
  id : String
  name : String
  city : String
  state : String
deriving DecidableEq, Repr

/-- One candidate returned by the geocoding dependency (line 79 reads
`latitude` and `longitude` of the first element). Coordinates are opaque to
every claim, so they are modelled as integers. -/
structure GeoLocation where
  latitude : Int
  longitude : Int
deriving DecidableEq, Repr

/-- One localized name entry of an upstream warehouse (line 101 reads
`w.name[0].value`). -/
structure NameEntry where
  value : String
deriving DecidableEq, Repr

/-- Address of an upstream warehouse (lines 102-103). -/
structure UpstreamAddress where
  city : String
  territory : String
deriving DecidableEq, Repr

/-- Warehouse record as returned by the warehouse-locator dependency
(lines 98-104). -/
structure UpstreamWarehouse where
  warehouseId : String
  name : List NameEntry
  address : UpstreamAddress
deriving DecidableEq, Repr

/-- One result document of the search dependency (lines 131-137).  All five
fields are opaque upstream values, carried as JSON. -/
structure SearchDoc where
  item_product_name : Json
  item_location_pricing_salePrice : Json
  item_location_availability : Json
  item_program_eligibility : Json
  item_partnumber : Json

/-- Query parameters sent to the search backend (lines 111-120). -/
structure SearchQuery where
  expoption : String
  q : String
  locale : String
  start : Int
  rows : Int
  whloc : String
  loc : String
  fq : String
deriving DecidableEq, Repr

/-- One outbound network request issued by the workflow.  The locator call
also carries a fixed limit of 1 and the current date as an opening-date
filter (lines 85-90); both are opaque to every claim and elided here. -/
inductive NetCall where
  | geocode (q : String)
  | locator (latitude longitude : Int)
  | search (query : SearchQuery)
deriving DecidableEq, Repr

/-- Pure oracle for the three upstream HTTP dependencies.  `geocode` returns
the response body list (`none` models a null/absent body, checked by
`!geoResp.data` on line 78); `locator` returns the `warehouses` field of its
response (`none` models it missing, checked on line 97); `search` returns
`response.data.response.docs`. -/
structure Upstream where
  geocode : String → Option (List GeoLocation)
  locator : Int → Int → Option (List UpstreamWarehouse)
  search : SearchQuery → List SearchDoc

/-- Merged workflow inputs (line 50).  `limit` is `none` when it is `NaN`
(possible via `parseInt` on the GET path); `warehouseId` is `none` when the
merged value is `null`. -/
structure Inputs where
  keyword : String
  zipCode : String
  limit : Option Int
  warehouseId : Option String
deriving DecidableEq, Repr

/-- The mutable `globalConfig` record (lines 38-43). -/
structure GlobalConfig where
  keyword : String
  zipCode : String
  limit : Int
  warehouseId : Option String
deriving DecidableEq, Repr

/-- Initial value of `globalConfig` (lines 38-43). -/
def initialConfig : GlobalConfig :=
  { keyword := ("juice"), zipCode := ("90210"), limit := 24, warehouseId := none }

/-- Query parameters of the GET endpoint (lines 252-257); each is a string
when present in the query string. -/
structure QueryParams where
  keyword : Option String
  zipCode : Option String
  limit : Option String
  warehouseId : Option String
deriving DecidableEq, Repr

/-- JSON body fields of the POST endpoints (lines 281-286 and 306-310);
`limit` is a number when present. -/
structure BodyParams where
  keyword : Option String
  zipCode : Option String
  limit : Option Int
  warehouseId : Option String
deriving DecidableEq, Repr

/-- JavaScript truthiness of an optional string: absent, null and the empty
string are falsy. -/
def truthyStr (o : Option String) : Bool :=
  match o with
  | some s => if s = ("") then false else true
  | none => false

/-- JavaScript `a || d` for an optional string `a` and string default `d`. -/
def jsOrStr (o : Option String) (d : String) : String :=
  match o with
  | some s => if s = ("") then d else s
  | none => d

/-- JavaScript `a || d` where the default is itself nullable (the
`warehouseId` merges on lines 256 and 285). -/
def jsOrOptStr (o : Option String) (d : Option String) : Option String :=
  match o with
  | some s => if s = ("") then d else some s
  | none => d

/-- JavaScript `a || d` for an optional number `a` (absent, null, NaN and 0
are falsy) and number default `d`. -/
def jsOrInt (o : Option Int) (d : Int) : Int :=
  match o with
  | some n => if n = 0 then d else n
  | none => d

/-- Value of a decimal digit character, none for non-digits. -/
def digitVal? (c : Char) : Option Nat :=
  if c.isDigit then some (c.toNat - (('0').toNat)) else none

/-- Left fold accumulating decimal digits; none as soon as a non-digit is
seen, and none on the empty list. -/
def digitsToNat? (cs : List Char) : Option Nat :=
  match cs with
  | [] => none
  | _ =>
    cs.foldl
      (fun acc c =>
        match acc, digitVal? c with
        | some a, some d => some (a * 10 + d)
        | _, _ => none)
      (some 0)

/-- Models JavaScript `parseInt(s, 10)` restricted to plain optionally
negated decimal strings; `none` models `NaN` (in particular on the empty
string and on non-numeric strings). -/
def parseIntJs (s : String) : Option Int :=
  match s.toList with
  | [] => none
  | c :: cs =>
    if c = ('-') then (digitsToNat? cs).map (fun n => -(n : Int))
    else (digitsToNat? (c :: cs)).map (fun n => (n : Int))

/-- Warehouse resolution via geocoding and the warehouse locator
(costco-server.js lines 68-104), paired with the trace of upstream calls it
issues.  An empty or null geocode response fails with the message of line
78; a missing or empty `warehouses` list fails with the message of line 97;
reading `w.name[0].value` on a warehouse with no name entries is the
JavaScript TypeError that the surrounding try/catch would propagate. -/
def resolveByZip (up : Upstream) (inputs : Inputs) : Except String Warehouse × List NetCall :=
  match up.geocode inputs.zipCode with
  | none => (Except.error ("Zip code not found"), [NetCall.geocode inputs.zipCode])
  | some geo =>
    match geo with
    | [] => (Except.error ("Zip code not found"), [NetCall.geocode inputs.zipCode])
    | loc :: _ =>
      match up.locator loc.latitude loc.longitude with
      | none =>
        (Except.error ("No warehouses found"),
         [NetCall.geocode inputs.zipCode, NetCall.locator loc.latitude loc.longitude])
      | some whs =>
        match whs with
        | [] =>
          (Except.error ("No warehouses found"),
           [NetCall.geocode inputs.zipCode, NetCall.locator loc.latitude loc.longitude])
        | w :: _ =>
          (match w.name with
           | [] => Except.error ("TypeError: reading value of undefined")
           | ne :: _ =>
             Except.ok
               { id := w.warehouseId
               , name := ne.value
               , city := w.address.city
               , state := w.address.territory },
           [NetCall.geocode inputs.zipCode, NetCall.locator loc.latitude loc.longitude])

/-- Step 1 of the workflow (lines 57-105): a truthy `warehouseId` short
circuits to the placeholder warehouse with no upstream calls; otherwise the
zip code path runs. -/
def resolveWarehouse (up : Upstream) (inputs : Inputs) : Except String Warehouse × List NetCall :=
  match inputs.warehouseId with
  | some wid =>
    if wid = ("") then resolveByZip up inputs
    else
      (Except.ok
        { id := wid
        , name := ("Store ") ++ wid
        , city := ("Unknown")
        , state := ("Unknown") }, [])
  | none => resolveByZip up inputs

/-- Search query construction (lines 111-120).  `rows` is
`inputs.limit || 24`, so a zero or NaN limit falls back to 24. -/
def buildSearchQuery (inputs : Inputs) (w : Warehouse) : SearchQuery :=
  { expoption := ("lucidworks")
  , q := inputs.keyword
  , locale := ("en-US")
  , start := 0
  , rows := jsOrInt inputs.limit 24
  , whloc := w.id ++ ("-wh")
  , loc := w.id ++ ("-wh")
  , fq := ("\x7b!tag=item_program_eligibility\x7ditem_program_eligibility:(\"InWarehouse\")") }

/-- Projection of one search result document into an item object
(lines 131-137).  The JavaScript object literal keys, in order, are `name`,
`price`, `availability`, `deliveryOptions`, `partNumber`. -/
def mapDoc (d : SearchDoc) : Json :=
  Json.obj
    [ (("name"), d.item_product_name)
    , (("price"), d.item_location_pricing_salePrice)
    , (("availability"), d.item_location_availability)
    , (("deliveryOptions"), d.item_program_eligibility)
    , (("partNumber"), d.item_partnumber) ]

/-- Workflow outputs (lines 49, 57, 108). -/
structure Outputs where
  warehouse : Warehouse
  items : List Json

/-- The full workflow (lines 48-151): resolve the warehouse, then issue one
search query and map every returned document in order.  Errors of step 1
propagate (the catch block on lines 141-150 only logs and rethrows). -/
def runWorkflow (up : Upstream) (inputs : Inputs) : Except String Outputs × List NetCall :=
  match resolveWarehouse up inputs with
  | (Except.error e, t) => (Except.error e, t)
  | (Except.ok w, t) =>
    let q := buildSearchQuery inputs w
    (Except.ok { warehouse := w, items := (up.search q).map mapDoc },
     t ++ [NetCall.search q])

/-- Input merge of the GET endpoint (lines 252-257): string fields win when
truthy; a truthy `limit` query parameter is parsed with `parseInt`. -/
def mergeGet (qp : QueryParams) (g : GlobalConfig) : Inputs :=
  { keyword := jsOrStr qp.keyword g.keyword
  , zipCode := jsOrStr qp.zipCode g.zipCode
  , limit :=
      match qp.limit with
      | some s => if s = ("") then some g.limit else parseIntJs s
      | none => some g.limit
  , warehouseId := jsOrOptStr qp.warehouseId g.warehouseId }

/-- Input merge of the POST endpoint (lines 281-286): every field falls back
to the global configuration when the body field is falsy. -/
def mergePost (b : BodyParams) (g : GlobalConfig) : Inputs :=
  { keyword := jsOrStr b.keyword g.keyword
  , zipCode := jsOrStr b.zipCode g.zipCode
  , limit := some (jsOrInt b.limit g.limit)
  , warehouseId := jsOrOptStr b.warehouseId g.warehouseId }

/-- Configuration endpoint (lines 306-316): each field of the global
configuration is overwritten exactly when the corresponding body field is
truthy. -/
def applyConfig (b : BodyParams) (g : GlobalConfig) : GlobalConfig :=
  { keyword := jsOrStr b.keyword g.keyword
  , zipCode := jsOrStr b.zipCode g.zipCode
  , limit := jsOrInt b.limit g.limit
  , warehouseId := jsOrOptStr b.warehouseId g.warehouseId }

/-- HTTP response: status code and JSON body. -/
structure HttpResponse where
  status : Nat
  body : Json

/-- JSON rendering of a resolved warehouse. -/
def warehouseJson (w : Warehouse) : Json :=
  Json.obj
    [ (("id"), Json.str w.id)
    , (("name"), Json.str w.name)
    , (("city"), Json.str w.city)
    , (("state"), Json.str w.state) ]

/-- JSON rendering of the workflow outputs. -/
def outputsJson (o : Outputs) : Json :=
  Json.obj [(("warehouse"), warehouseJson o.warehouse), (("items"), Json.arr o.items)]

/-- Response shaping shared by both /api/costco handlers (lines 260-272 and
289-301).  Success is a 200 with the outputs; any error becomes a 500 with
`success: false`, the error message and the measured duration.  The
`details` field of the error body is `undefined` for non-HTTP errors and is
then dropped from the serialized JSON; errors are modelled by their message,
so it is elided here.  `duration` stands for the already formatted
`((Date.now() - startTime) / 1000).toFixed(2)` string. -/
def respond (result : Except String Outputs) (duration : String) : HttpResponse :=
  match result with
  | Except.ok o =>
    { status := 200
    , body :=
        Json.obj
          [ (("success"), Json.bool true)
          , (("duration"), Json.str (duration ++ ("s")))
          , (("outputs"), outputsJson o) ] }
  | Except.error e =>
    { status := 500
    , body :=
        Json.obj
          [ (("success"), Json.bool false)
          , (("error"), Json.str e)
          , (("duration"), Json.str (duration ++ ("s"))) ] }

/-- The GET /api/costco handler (lines 248-274). -/
def handleGet (up : Upstream) (qp : QueryParams) (g : GlobalConfig) (duration : String) : HttpResponse :=
  respond (runWorkflow up (mergeGet qp g)).1 duration

/-- The POST /api/costco handler (lines 277-303). -/
def handlePost (up : Upstream) (b : BodyParams) (g : GlobalConfig) (duration : String) : HttpResponse :=
  respond (runWorkflow up (mergePost b g)).1 duration

/-- Error message of a resolver result, none on success. -/
def errMsg (r : Except String Warehouse) : Option String :=
  match r with
  | Except.error e => some e
  | Except.ok _ => none

/-- Number of items of a workflow result, 0 on error. -/
def itemsLen (r : Except String Outputs) : Nat :=
  match r with
  | Except.ok o => o.items.length
  | Except.error _ => 0

/-- Whether a network call targets the search dependency. -/
def isSearchCall (c : NetCall) : Bool :=
  match c with
  | NetCall.search _ => true
  | _ => false

/-- Whether a network call targets the geocoding or locator dependency. -/
def isGeoLocCall (c : NetCall) : Bool :=
  match c with
  | NetCall.geocode _ => true
  | NetCall.locator _ _ => true
  | NetCall.search _ => false

/-- Whether an upstream response body is missing or an empty list (the
checks on lines 78 and 97). -/
def emptyData (o : Option (List α)) : Bool :=
  match o with
  | none => true
  | some l => l.isEmpty

/-- Upstream oracle whose geocode and locator return empty lists and whose
search returns no documents. -/
def upEmpty : Upstream :=
  { geocode := fun _ => some []
  , locator := fun _ _ => some []
  , search := fun _ => [] }

/-- Merged inputs of a request that omits the warehouse id. -/
def inputs0 : Inputs :=
  { keyword := ("juice"), zipCode := ("90210"), limit := some 24, warehouseId := none }

/-- Query parameters of a GET request supplying nothing. -/
def qpNone : QueryParams :=
  { keyword := none, zipCode := none, limit := none, warehouseId := none }

/-- Body of a POST request supplying nothing. -/
def bNone : BodyParams :=
  { keyword := none, zipCode := none, limit := none, warehouseId := none }

/-- One concrete upstream search document. -/
def d0 : SearchDoc :=
  { item_product_name := Json.str ("Juice 2-pack")
  , item_location_pricing_salePrice := Json.num 9
  , item_location_availability := Json.str ("IN_STOCK")
  , item_program_eligibility := Json.str ("InWarehouse")
  , item_partnumber := Json.str ("100123") }

/-- Upstream oracle whose search returns two documents regardless of the
requested row count. -/
def upTwoDocs : Upstream :=
  { geocode := fun _ => some []
  , locator := fun _ _ => some []
  , search := fun _ => [d0, d0] }

/-- Applying the same JavaScript or-default twice is the same as once. -/
theorem jsOrStr_idem (o : Option String) (d : String) :
    jsOrStr o (jsOrStr o d) = jsOrStr o d := by
  cases o with
  | none => rfl
  | some s =>
    by_cases h : s = ("") <;> simp [jsOrStr, h]

/-- Applying the same nullable-default or twice is the same as once. -/
theorem jsOrOptStr_idem (o : Option String) (d : Option String) :
    jsOrOptStr o (jsOrOptStr o d) = jsOrOptStr o d := by
  cases o with
  | none => rfl
  | some s =>
    by_cases h : s = ("") <;> simp [jsOrOptStr, h]

/-- Applying the same numeric or-default twice is the same as once. -/
theorem jsOrInt_idem (o : Option Int) (d : Int) :
    jsOrInt o (jsOrInt o d) = jsOrInt o d := by
  cases o with
  | none => rfl
  | some n =>
    by_cases h : n = 0 <;> simp [jsOrInt, h]

/-- C1: for every merged request carrying a non-empty warehouseId, the
warehouse resolver returns the placeholder warehouse with name
"Store <id>", city "Unknown", state "Unknown", issuing no upstream call at
all, and the whole workflow issues no geocode or locator call. -/
theorem c1_explicit_warehouse_placeholder (up : Upstream) (inputs : Inputs) (wid : String)
    (hw : inputs.warehouseId = some wid) (hne : wid ≠ ("")) :
    resolveWarehouse up inputs =
      (Except.ok
        { id := wid, name := ("Store ") ++ wid, city := ("Unknown"), state := ("Unknown") }, [])
    ∧ ((runWorkflow up inputs).2.filter isGeoLocCall) = [] := by
  have hres : resolveWarehouse up inputs =
      (Except.ok
        { id := wid, name := ("Store ") ++ wid, city := ("Unknown"), state := ("Unknown") },
        ([] : List NetCall)) := by
    simp [resolveWarehouse, hw, hne]
  refine ⟨hres, ?_⟩
  simp [runWorkflow, hres, isGeoLocCall]

/-- Witness for C1 at the explicit warehouse id 123. -/
theorem c1_explicit_warehouse_placeholder_witness :
    resolveWarehouse upEmpty
        { keyword := ("juice"), zipCode := ("90210"), limit := some 5, warehouseId := some ("123") } =
      (Except.ok
        { id := ("123"), name := ("Store ") ++ ("123"), city := ("Unknown"), state := ("Unknown") }, [])
    ∧ ((runWorkflow upEmpty
        { keyword := ("juice"), zipCode := ("90210"), limit := some 5, warehouseId := some ("123") }).2.filter
          isGeoLocCall) = [] :=
  c1_explicit_warehouse_placeholder upEmpty
    { keyword := ("juice"), zipCode := ("90210"), limit := some 5, warehouseId := some ("123") }
    ("123") rfl (by decide)

/-- C7: the configuration update is frame-preserving: any field absent from
the body is left unchanged, and a body supplying only limit 10 changes only
the limit. -/
theorem c7_config_frame (b : BodyParams) (g : GlobalConfig) :
    (applyConfig { keyword := none, zipCode := none, limit := some 10, warehouseId := none } g
      = { keyword := g.keyword, zipCode := g.zipCode, limit := 10, warehouseId := g.warehouseId })
    ∧ (b.keyword = none → (applyConfig b g).keyword = g.keyword)
    ∧ (b.zipCode = none → (applyConfig b g).zipCode = g.zipCode)
    ∧ (b.limit = none → (applyConfig b g).limit = g.limit)
    ∧ (b.warehouseId = none → (applyConfig b g).warehouseId = g.warehouseId) := by
  refine ⟨?_, ?_, ?_, ?_, ?_⟩
  · simp [applyConfig, jsOrStr, jsOrInt, jsOrOptStr]
  · intro h; simp [applyConfig, jsOrStr, h]
  · intro h; simp [applyConfig, jsOrStr, h]
  · intro h; simp [applyConfig, jsOrInt, h]
  · intro h; simp [applyConfig, jsOrOptStr, h]

/-- Witness for C7: updating only the limit of the initial configuration. -/
theorem c7_config_frame_witness :
    (applyConfig { keyword := none, zipCode := none, limit := some 10, warehouseId := none }
        initialConfig
      = { keyword := initialConfig.keyword, zipCode := initialConfig.zipCode, limit := 10
        , warehouseId := initialConfig.warehouseId })
    ∧ (applyConfig { keyword := none, zipCode := none, limit := some 10, warehouseId := none }
        initialConfig).keyword = initialConfig.keyword :=
  ⟨(c7_config_frame
      { keyword := none, zipCode := none, limit := some 10, warehouseId := none } initialConfig).1,
   (c7_config_frame
      { keyword := none, zipCode := none, limit := some 10, warehouseId := none } initialConfig).2.1 rfl⟩

/-- C8: the configuration update is idempotent: applying the same body twice
yields the same global configuration as applying it once. -/
theorem c8_config_idempotent (b : BodyParams) (g : GlobalConfig) :
    applyConfig b (applyConfig b g) = applyConfig b g := by
  simp [applyConfig, jsOrStr_idem, jsOrInt_idem, jsOrOptStr_idem]

/-- C10: a supplied but falsy configuration field (0 or the empty string) is
treated as absent and leaves the corresponding field unchanged, so the
configuration endpoint can never set the limit to 0 or the keyword to the
empty string. -/
theorem c10_falsy_config_ignored (b : BodyParams) (g : GlobalConfig) :
    (b.keyword = some ("") → (applyConfig b g).keyword = g.keyword)
    ∧ (b.zipCode = some ("") → (applyConfig b g).zipCode = g.zipCode)
    ∧ (b.limit = some 0 → (applyConfig b g).limit = g.limit)
    ∧ (b.warehouseId = some ("") → (applyConfig b g).warehouseId = g.warehouseId)
    ∧ (applyConfig { keyword := some (""), zipCode := some (""), limit := some 0
                   , warehouseId := some ("") } g = g)
    ∧ ((applyConfig b g).limit = 0 → g.limit = 0)
    ∧ ((applyConfig b g).keyword = ("") → g.keyword = ("")) := by
  refine ⟨?_, ?_, ?_, ?_, ?_, ?_, ?_⟩
  · intro h; simp [applyConfig, jsOrStr, h]
  · intro h; simp [applyConfig, jsOrStr, h]
  · intro h; simp [applyConfig, jsOrInt, h]
  · intro h; simp [applyConfig, jsOrOptStr, h]
  · simp [applyConfig, jsOrStr, jsOrInt, jsOrOptStr]
  · intro h
    cases hb : b.limit with
    | none => simpa [applyConfig, jsOrInt, hb] using h
    | some n =>
      by_cases hn : n = 0
      · simpa [applyConfig, jsOrInt, hb, hn] using h
      · simp [applyConfig, jsOrInt, hb, hn] at h
  · intro h
    cases hb : b.keyword with
    | none => simpa [applyConfig, jsOrStr, hb] using h
    | some s =>
      by_cases hs : s = ("")
      · simpa [applyConfig, jsOrStr, hb, hs] using h
      · simp [applyConfig, jsOrStr, hb, hs] at h

/-- Witness for C10: a falsy keyword and limit leave the initial
configuration untouched. -/
theorem c10_falsy_config_ignored_witness :
    ((applyConfig { keyword := some (""), zipCode := none, limit := some 0, warehouseId := none }
        initialConfig).keyword = initialConfig.keyword)
    ∧ ((applyConfig { keyword := some (""), zipCode := none, limit := some 0, warehouseId := none }
        initialConfig).limit = initialConfig.limit)
    ∧ (applyConfig { keyword := some (""), zipCode := some (""), limit := some 0
                   , warehouseId := some ("") } initialConfig = initialConfig) :=
  ⟨(c10_falsy_config_ignored
      { keyword := some (""), zipCode := none, limit := some 0, warehouseId := none }
      initialConfig).1 rfl,
   (c10_falsy_config_ignored
      { keyword := some (""), zipCode := none, limit := some 0, warehouseId := none }
      initialConfig).2.2.1 rfl,
   (c10_falsy_config_ignored bNone initialConfig).2.2.2.2.1⟩

/-- A GET query-string limit and a POST JSON-body limit encode the same
logical limit: both absent, or the string parses to exactly that number. -/
def encodesLimit (lq : Option String) (lb : Option Int) : Prop :=
  match lq, lb with
  | none, none => True
  | some s, some n => parseIntJs s = some n
  | _, _ => False

/-- C9 counterexample: the logical request supplying limit 0 (the query
string "0" on GET, the JSON number 0 on POST) merges to limit 0 on the GET
path but to the default 24 on the POST path, so the two transports are not
equivalent as claimed. -/
theorem c9_counterexample :
    parseIntJs ("0") = some 0
    ∧ mergeGet { keyword := none, zipCode := none, limit := some ("0"), warehouseId := none }
        initialConfig
      ≠ mergePost { keyword := none, zipCode := none, limit := some 0, warehouseId := none }
          initialConfig := by
  constructor
  · decide
  · decide

/-- C9 (amended): the GET and POST merges agree on every logical request
whose limit, when supplied, is a nonzero integer; keyword, zipCode and
warehouseId merge identically on both transports. -/
theorem c9_amended_get_post_equiv (g : GlobalConfig) (kw zip wid : Option String)
    (lq : Option String) (lb : Option Int)
    (henc : encodesLimit lq lb) (hnz : lb ≠ some 0) :
    mergeGet { keyword := kw, zipCode := zip, limit := lq, warehouseId := wid } g
      = mergePost { keyword := kw, zipCode := zip, limit := lb, warehouseId := wid } g := by
  cases lq with
  | none =>
    cases lb with
    | none => simp [mergeGet, mergePost, jsOrInt]
    | some n => exact absurd henc (by simp [encodesLimit])
  | some s =>
    cases lb with
    | none => exact absurd henc (by simp [encodesLimit])
    | some n =>
      have hs : parseIntJs s = some n := henc
      have hne : ¬ s = ("") := by
        intro h
        rw [h] at hs
        exact Option.noConfusion hs
      have hn0 : ¬ n = 0 := fun h => hnz (by rw [h])
      simp [mergeGet, mergePost, hne, hs, jsOrInt, hn0]

/-- Witness for the amended C9 at keyword water and limit 5. -/
theorem c9_amended_get_post_equiv_witness :
    mergeGet { keyword := some ("water"), zipCode := none, limit := some ("5")
             , warehouseId := none } initialConfig
      = mergePost { keyword := some ("water"), zipCode := none, limit := some 5
                  , warehouseId := none } initialConfig :=
  c9_amended_get_post_equiv initialConfig (some ("water")) none none (some ("5")) (some 5)
    (by show parseIntJs ("5") = some 5; decide) (by decide)

/-- C2 counterexample: an empty geocode response makes the resolver fail
with the message "Zip code not found" (capital Z), not the message
"zip code not found" stated by the claim. -/
theorem c2_counterexample :
    errMsg (resolveWarehouse upEmpty inputs0).1 = some ("Zip code not found")
    ∧ errMsg (resolveWarehouse upEmpty inputs0).1 ≠ some ("zip code not found") := by
  constructor
  · decide
  · decide

/-- C2 (amended): for merged inputs without a truthy warehouseId the
resolver always calls the geocode dependency first; a missing or empty
geocode response fails with "Zip code not found" (capital Z, against the
lowercase message of the claim) before any locator call, and a missing or
empty locator response fails with "No warehouses found" (capital N) after
exactly the geocode call followed by the locator call. -/
theorem c2_amended_zip_resolution (up : Upstream) (inputs : Inputs)
    (hw : truthyStr inputs.warehouseId = false) :
    (resolveWarehouse up inputs).2.head? = some (NetCall.geocode inputs.zipCode)
    ∧ (emptyData (up.geocode inputs.zipCode) = true →
        (resolveWarehouse up inputs).1 = Except.error ("Zip code not found")
        ∧ (resolveWarehouse up inputs).2 = [NetCall.geocode inputs.zipCode])
    ∧ (∀ loc rest, up.geocode inputs.zipCode = some (loc :: rest) →
        emptyData (up.locator loc.latitude loc.longitude) = true →
        (resolveWarehouse up inputs).1 = Except.error ("No warehouses found")
        ∧ (resolveWarehouse up inputs).2
          = [NetCall.geocode inputs.zipCode, NetCall.locator loc.latitude loc.longitude]) := by
  have hres : resolveWarehouse up inputs = resolveByZip up inputs := by
    cases hW : inputs.warehouseId with
    | none => simp [resolveWarehouse, hW]
    | some wid =>
      have hempty : wid = ("") := by
        by_cases h : wid = ("")
        · exact h
        · rw [hW] at hw
          simp [truthyStr, h] at hw
      simp [resolveWarehouse, hW, hempty]
  rw [hres]
  refine ⟨?_, ?_, ?_⟩
  · cases hg : up.geocode inputs.zipCode with
    | none => simp [resolveByZip, hg]
    | some geo =>
      cases geo with
      | nil => simp [resolveByZip, hg]
      | cons loc rest =>
        cases hl : up.locator loc.latitude loc.longitude with
        | none => simp [resolveByZip, hg, hl]
        | some whs =>
          cases whs with
          | nil => simp [resolveByZip, hg, hl]
          | cons w ws => cases w.name <;> simp [resolveByZip, hg, hl]
  · intro hempty
    cases hg : up.geocode inputs.zipCode with
    | none => simp [resolveByZip, hg]
    | some geo =>
      cases geo with
      | nil => simp [resolveByZip, hg]
      | cons loc rest =>
        rw [hg] at hempty
        simp [emptyData] at hempty
  · intro loc rest hg hempty
    cases hl : up.locator loc.latitude loc.longitude with
    | none => simp [resolveByZip, hg, hl]
    | some whs =>
      cases whs with
      | nil => simp [resolveByZip, hg, hl]
      | cons w ws =>
        rw [hl] at hempty
        simp [emptyData] at hempty

/-- Witness for the amended C2 on an upstream whose geocode response is the
empty list. -/
theorem c2_amended_zip_resolution_witness :
    (resolveWarehouse upEmpty inputs0).2.head? = some (NetCall.geocode inputs0.zipCode)
    ∧ (resolveWarehouse upEmpty inputs0).1 = Except.error ("Zip code not found")
    ∧ (resolveWarehouse upEmpty inputs0).2 = [NetCall.geocode inputs0.zipCode] :=
  ⟨(c2_amended_zip_resolution upEmpty inputs0 rfl).1,
   ((c2_amended_zip_resolution upEmpty inputs0 rfl).2.1 (by decide)).1,
   ((c2_amended_zip_resolution upEmpty inputs0 rfl).2.1 (by decide)).2⟩

/-- The resolver never issues a search call: its trace holds at most a
geocode call followed by a locator call. -/
theorem resolver_trace_no_search (up : Upstream) (inputs : Inputs) :
    ((resolveWarehouse up inputs).2.filter isSearchCall) = [] := by
  have hzip : ((resolveByZip up inputs).2.filter isSearchCall) = [] := by
    cases hg : up.geocode inputs.zipCode with
    | none => simp [resolveByZip, hg, isSearchCall]
    | some geo =>
      cases geo with
      | nil => simp [resolveByZip, hg, isSearchCall]
      | cons loc rest =>
        cases hl : up.locator loc.latitude loc.longitude with
        | none => simp [resolveByZip, hg, hl, isSearchCall]
        | some whs =>
          cases whs with
          | nil => simp [resolveByZip, hg, hl, isSearchCall]
          | cons w ws => cases w.name <;> simp [resolveByZip, hg, hl, isSearchCall]
  cases hW : inputs.warehouseId with
  | none => simpa [resolveWarehouse, hW] using hzip
  | some wid =>
    by_cases h : wid = ("")
    · simpa [resolveWarehouse, hW, h] using hzip
    · simp [resolveWarehouse, hW, h]

/-- C3 counterexample: with merged resultLimit 0 (reachable through the GET
query string limit=0) the search query requests 24 rows, not 0 rows. -/
theorem c3_counterexample :
    (buildSearchQuery
        { keyword := ("juice"), zipCode := ("90210"), limit := some 0, warehouseId := some ("123") }
        { id := ("123"), name := ("Store 123"), city := ("Unknown"), state := ("Unknown") }).rows
      = 24
    ∧ (buildSearchQuery
        { keyword := ("juice"), zipCode := ("90210"), limit := some 0, warehouseId := some ("123") }
        { id := ("123"), name := ("Store 123"), city := ("Unknown"), state := ("Unknown") }).rows
      ≠ 0 := by
  constructor
  · decide
  · decide

/-- C3 (amended): whenever the resolver succeeds and the merged limit is a
nonzero integer n, the workflow sends exactly one search query; that query
requests exactly n rows, starts at 0, and scopes both whloc and loc to
"<id>-wh".  A zero or NaN limit instead requests the fallback of 24 rows. -/
theorem c3_amended_search_query (up : Upstream) (inputs : Inputs) (w : Warehouse) (n : Int)
    (hw : (resolveWarehouse up inputs).1 = Except.ok w)
    (hl : inputs.limit = some n) (hn : n ≠ 0) :
    (buildSearchQuery inputs w).rows = n
    ∧ (buildSearchQuery inputs w).start = 0
    ∧ (buildSearchQuery inputs w).whloc = w.id ++ ("-wh")
    ∧ (buildSearchQuery inputs w).loc = w.id ++ ("-wh")
    ∧ ((runWorkflow up inputs).2.filter isSearchCall)
        = [NetCall.search (buildSearchQuery inputs w)] := by
  refine ⟨?_, rfl, rfl, rfl, ?_⟩
  · simp [buildSearchQuery, jsOrInt, hl, hn]
  · have hnos := resolver_trace_no_search up inputs
    rcases hr : resolveWarehouse up inputs with ⟨r, t⟩
    rw [hr] at hw hnos
    simp at hw
    subst hw
    simp [runWorkflow, hr, List.filter_append, isSearchCall]
    simpa using hnos

/-- Witness for the amended C3 at an explicit warehouse id and limit 5. -/
theorem c3_amended_search_query_witness :
    (buildSearchQuery
        { keyword := ("juice"), zipCode := ("90210"), limit := some 5, warehouseId := some ("123") }
        { id := ("123"), name := ("Store ") ++ ("123"), city := ("Unknown"), state := ("Unknown") }).rows
      = 5
    ∧ (buildSearchQuery
        { keyword := ("juice"), zipCode := ("90210"), limit := some 5, warehouseId := some ("123") }
        { id := ("123"), name := ("Store ") ++ ("123"), city := ("Unknown"), state := ("Unknown") }).start
      = 0
    ∧ (buildSearchQuery
        { keyword := ("juice"), zipCode := ("90210"), limit := some 5, warehouseId := some ("123") }
        { id := ("123"), name := ("Store ") ++ ("123"), city := ("Unknown"), state := ("Unknown") }).whloc
      = ("123") ++ ("-wh")
    ∧ (buildSearchQuery
        { keyword := ("juice"), zipCode := ("90210"), limit := some 5, warehouseId := some ("123") }
        { id := ("123"), name := ("Store ") ++ ("123"), city := ("Unknown"), state := ("Unknown") }).loc
      = ("123") ++ ("-wh")
    ∧ ((runWorkflow upEmpty
        { keyword := ("juice"), zipCode := ("90210"), limit := some 5, warehouseId := some ("123") }).2.filter
          isSearchCall)
      = [NetCall.search (buildSearchQuery
          { keyword := ("juice"), zipCode := ("90210"), limit := some 5, warehouseId := some ("123") }
          { id := ("123"), name := ("Store ") ++ ("123"), city := ("Unknown"), state := ("Unknown") })] :=
  c3_amended_search_query upEmpty
    { keyword := ("juice"), zipCode := ("90210"), limit := some 5, warehouseId := some ("123") }
    { id := ("123"), name := ("Store ") ++ ("123"), city := ("Unknown"), state := ("Unknown") }
    5 rfl rfl (by decide)

/-- C4 counterexample: the item object produced from a search document has a
field named deliveryOptions, not the field deliveryEligibility stated by the
claim. -/
theorem c4_counterexample :
    ¬ (("deliveryEligibility") ∈ jsonKeys (mapDoc d0))
    ∧ (("deliveryOptions") ∈ jsonKeys (mapDoc d0)) := by
  constructor
  · decide
  · decide

/-- C4 (amended): on success the item list is exactly the upstream document
list mapped in order through the fixed projection (no re-sorting and no
deduplication), and each projected item object has exactly the keys name,
price, availability, deliveryOptions, partNumber bound to the upstream
fields item_product_name, item_location_pricing_salePrice,
item_location_availability, item_program_eligibility, item_partnumber. -/
theorem c4_amended_projection (up : Upstream) (inputs : Inputs) (w : Warehouse)
    (hw : (resolveWarehouse up inputs).1 = Except.ok w) :
    ((runWorkflow up inputs).1
      = Except.ok
          { warehouse := w
          , items := (up.search (buildSearchQuery inputs w)).map mapDoc })
    ∧ ∀ d : SearchDoc,
        jsonKeys (mapDoc d)
          = [("name"), ("price"), ("availability"), ("deliveryOptions"), ("partNumber")]
        ∧ lookupField (mapDoc d) ("name") = some d.item_product_name
        ∧ lookupField (mapDoc d) ("price") = some d.item_location_pricing_salePrice
        ∧ lookupField (mapDoc d) ("availability") = some d.item_location_availability
        ∧ lookupField (mapDoc d) ("deliveryOptions") = some d.item_program_eligibility
        ∧ lookupField (mapDoc d) ("partNumber") = some d.item_partnumber := by
  constructor
  · rcases hr : resolveWarehouse up inputs with ⟨r, t⟩
    rw [hr] at hw
    simp at hw
    subst hw
    simp [runWorkflow, hr]
  · intro d
    refine ⟨rfl, ?_, ?_, ?_, ?_, ?_⟩ <;> simp [lookupField, mapDoc, List.lookup]

/-- Witness for the amended C4 on an explicit warehouse id and a search
backend returning two concrete documents. -/
theorem c4_amended_projection_witness :
    ((runWorkflow upTwoDocs
        { keyword := ("juice"), zipCode := ("90210"), limit := some 5, warehouseId := some ("123") }).1
      = Except.ok
          { warehouse :=
              { id := ("123"), name := ("Store ") ++ ("123"), city := ("Unknown")
              , state := ("Unknown") }
          , items :=
              (upTwoDocs.search
                (buildSearchQuery
                  { keyword := ("juice"), zipCode := ("90210"), limit := some 5
                  , warehouseId := some ("123") }
                  { id := ("123"), name := ("Store ") ++ ("123"), city := ("Unknown")
                  , state := ("Unknown") })).map mapDoc })
    ∧ lookupField (mapDoc d0) ("deliveryOptions") = some (d0.item_program_eligibility) :=
  ⟨(c4_amended_projection upTwoDocs
      { keyword := ("juice"), zipCode := ("90210"), limit := some 5, warehouseId := some ("123") }
      { id := ("123"), name := ("Store ") ++ ("123"), city := ("Unknown"), state := ("Unknown") }
      rfl).1,
   ((c4_amended_projection upTwoDocs
      { keyword := ("juice"), zipCode := ("90210"), limit := some 5, warehouseId := some ("123") }
      { id := ("123"), name := ("Store ") ++ ("123"), city := ("Unknown"), state := ("Unknown") }
      rfl).2 d0).2.2.2.2.1⟩

/-- C5 counterexample: the workflow does not truncate the upstream response:
a search backend returning two documents against a merged resultLimit of 1
yields an item list of length 2, exceeding the limit. -/
theorem c5_counterexample :
    itemsLen (runWorkflow upTwoDocs
        { keyword := ("juice"), zipCode := ("90210"), limit := some 1
        , warehouseId := some ("123") }).1 = 2
    ∧ ¬ (itemsLen (runWorkflow upTwoDocs
        { keyword := ("juice"), zipCode := ("90210"), limit := some 1
        , warehouseId := some ("123") }).1 ≤ 1) := by
  constructor
  · decide
  · decide

/-- C5 (amended): the item list always has exactly one entry per upstream
document; it is bounded by the merged resultLimit n only under the
assumption that the search backend returns at most the n rows requested
(and that n is a nonzero limit, since a zero limit requests 24 rows). -/
theorem c5_amended_limit_bound (up : Upstream) (inputs : Inputs) (w : Warehouse) (n : Nat)
    (hw : (resolveWarehouse up inputs).1 = Except.ok w)
    (hl : inputs.limit = some (n : Int)) (hn : (n : Int) ≠ 0)
    (hup : ((up.search (buildSearchQuery inputs w)).length : Int)
      ≤ (buildSearchQuery inputs w).rows) :
    itemsLen (runWorkflow up inputs).1 = (up.search (buildSearchQuery inputs w)).length
    ∧ (itemsLen (runWorkflow up inputs).1 : Int) ≤ (n : Int) := by
  have hlen :
      itemsLen (runWorkflow up inputs).1 = (up.search (buildSearchQuery inputs w)).length := by
    rcases hr : resolveWarehouse up inputs with ⟨r, t⟩
    rw [hr] at hw
    simp at hw
    subst hw
    simp [runWorkflow, hr, itemsLen]
  have hrows : (buildSearchQuery inputs w).rows = (n : Int) := by
    simp [buildSearchQuery, jsOrInt, hl, hn]
  rw [hrows] at hup
  exact ⟨hlen, by rw [hlen]; exact hup⟩

/-- Witness for the amended C5: an empty search response respects limit 5. -/
theorem c5_amended_limit_bound_witness :
    itemsLen (runWorkflow upEmpty
        { keyword := ("juice"), zipCode := ("90210"), limit := some 5
        , warehouseId := some ("123") }).1
      = (upEmpty.search
          (buildSearchQuery
            { keyword := ("juice"), zipCode := ("90210"), limit := some 5
            , warehouseId := some ("123") }
            { id := ("123"), name := ("Store ") ++ ("123"), city := ("Unknown")
            , state := ("Unknown") })).length
    ∧ (itemsLen (runWorkflow upEmpty
        { keyword := ("juice"), zipCode := ("90210"), limit := some 5
        , warehouseId := some ("123") }).1 : Int) ≤ ((5 : Nat) : Int) :=
  c5_amended_limit_bound upEmpty
    { keyword := ("juice"), zipCode := ("90210"), limit := some 5, warehouseId := some ("123") }
    { id := ("123"), name := ("Store ") ++ ("123"), city := ("Unknown"), state := ("Unknown") }
    5 rfl rfl (by decide) (by decide)

/-- C6: every error raised inside the workflow is converted by both facade
handlers into an HTTP 500 response whose JSON body carries success false,
the free-text error message, and the duration string; the 500 status does
not depend on the kind of error. -/
theorem c6_error_envelope (up : Upstream) (qp : QueryParams) (b : BodyParams)
    (g : GlobalConfig) (dur : String) (e1 e2 : String)
    (hg : (runWorkflow up (mergeGet qp g)).1 = Except.error e1)
    (hp : (runWorkflow up (mergePost b g)).1 = Except.error e2) :
    ((handleGet up qp g dur).status = 500
      ∧ lookupField (handleGet up qp g dur).body ("success") = some (Json.bool false)
      ∧ lookupField (handleGet up qp g dur).body ("error") = some (Json.str e1)
      ∧ lookupField (handleGet up qp g dur).body ("duration")
          = some (Json.str (dur ++ ("s"))))
    ∧ ((handlePost up b g dur).status = 500
      ∧ lookupField (handlePost up b g dur).body ("success") = some (Json.bool false)
      ∧ lookupField (handlePost up b g dur).body ("error") = some (Json.str e2)
      ∧ lookupField (handlePost up b g dur).body ("duration")
          = some (Json.str (dur ++ ("s")))) := by
  constructor
  · simp [handleGet, hg, respond, lookupField, List.lookup]
  · simp [handlePost, hp, respond, lookupField, List.lookup]

/-- Witness for C6: the geocode miss propagates as a 500 through both
handlers with the initial configuration. -/
theorem c6_error_envelope_witness :
    ((handleGet upEmpty qpNone initialConfig ("0.01")).status = 500
      ∧ lookupField (handleGet upEmpty qpNone initialConfig ("0.01")).body ("error")
          = some (Json.str ("Zip code not found")))
    ∧ ((handlePost upEmpty bNone initialConfig ("0.01")).status = 500
      ∧ lookupField (handlePost upEmpty bNone initialConfig ("0.01")).body ("error")
          = some (Json.str ("Zip code not found"))) :=
  ⟨⟨(c6_error_envelope upEmpty qpNone bNone initialConfig ("0.01")
      ("Zip code not found") ("Zip code not found") rfl rfl).1.1,
    (c6_error_envelope upEmpty qpNone bNone initialConfig ("0.01")
      ("Zip code not found") ("Zip code not found") rfl rfl).1.2.2.1⟩,
   ⟨(c6_error_envelope upEmpty qpNone bNone initialConfig ("0.01")
      ("Zip code not found") ("Zip code not found") rfl rfl).2.1,
    (c6_error_envelope upEmpty qpNone bNone initialConfig ("0.01")
      ("Zip code not found") ("Zip code not found") rfl rfl).2.2.2.1⟩⟩
